import Mathlib

/-!
# Verification of the cross-chain bridge completion detector

A shallow embedding of the balance-polling completion detector of this
repository and of the surrounding CLI / frontend glue, with theorems
settling the specification's claims about it.

The embedded code:

* `scripts/bridge.js`, `waitForTokensReceived` (lines 77-165): the CLI
  completion detector.  Its three event handlers — the `checkBalance`
  polling callback, the one-shot `setTimeout` callback, and the `SIGINT`
  handler — become the step functions `checkBalanceStep`,
  `timeoutFireStep` and `sigintStep` over an explicit `DetectorState`.
  A detection run is a fold of timer events (`runEvents`) over that state.
* `scripts/bridge.js`, `main` (lines 243-284): CLI argument validation,
  embedded as `cliParse`.
* `frontend/src/components/BridgeModal.jsx` (lines 38-65): the UI-side
  completion check, embedded as `modalTick` / `modalCheck`.
* `frontend/src/components/TokenBridge.jsx`, `handleSubmit` (lines 29-65):
  frontend form validation, embedded as `handleSubmit`.
* `frontend/src/utils/balances.js`: the stored-balance behaviour of
  `fetchTokenBalance` (lines 25-40) and the per-chain refetch throttle of
  `fetchBalanceForChain` (lines 65-78), embedded as
  `fetchTokenBalanceStored` and `fetchBalanceForChainDecision`.

Machine integers: on-chain balances are ethers.js `BigInt`s, embedded as
`Int` (they are arbitrary precision, so no wraparound is modelled); times
are millisecond counts embedded as `Nat`.
-/

namespace QuickstartToken

/-! ## The CLI completion detector (`scripts/bridge.js`, lines 77-165) -/

/-- Configuration of one `waitForTokensReceived` run: the expected amount in
wei (`amountWei = ethers.parseEther(amount)`, line 83), the timeout in
milliseconds (default `5 * 60 * 1000`, line 77), the poll interval in
milliseconds (`10000`, line 84) and the recipient address. -/
structure DetectorConfig where
  amountWei : Int
  timeout : Nat
  pollInterval : Nat
  recipient : String
deriving Repr, DecidableEq

/-- The value `resolve({ recipient, amount })` is called with on a match
(line 124). -/
structure MatchValue where
  recipient : String
  amount : Int
deriving Repr, DecidableEq

/-- A settled value of the promise: `none` is `resolve(null)` (timeout or
cancellation), `some m` is `resolve({recipient, amount})` (match). -/
abbrev Resolution := Option MatchValue

/-- The mutable state of one detection run.

* `baseline` is the `initialBalance` variable (line 87), `none` until the
  first successful read.
* `intervalActive` / `timeoutActive`: whether the repeating poll timer
  (`intervalId`, line 142) and the one-shot timeout timer (`timeoutId`,
  line 148) are still scheduled.
* `result`: `none` while the promise is pending, `some r` once settled;
  a second `resolve` is a no-op on a settled promise, so `result` is
  written first-wins (`resolveWith`).
* `resolvedAt` / `baselineAt` record the times of the first `resolve` and
  of baseline capture; they are observation-only instrumentation and are
  written exactly where `result` and `baseline` are. -/
structure DetectorState where
  baseline : Option Int
  intervalActive : Bool
  timeoutActive : Bool
  result : Option Resolution
  resolvedAt : Option Nat
  baselineAt : Option Nat
deriving Repr, DecidableEq

/-- State at promise construction (lines 81-87): no baseline yet, both
timers scheduled, promise pending. -/
def initState : DetectorState :=
  { baseline := none, intervalActive := true, timeoutActive := true,
    result := none, resolvedAt := none, baselineAt := none }

/-- The call `resolve(r)` at time `t`: settles the promise if it is still pending,
otherwise leaves the settled value untouched (JS promises settle once). -/
def resolveWith (t : Nat) (r : Resolution) (s : DetectorState) : DetectorState :=
  if s.result.isSome then s
  else { s with result := some r, resolvedAt := some t }

/-- The tolerance comparison of line 106,
`Math.abs(Number(difference - amountWei)) < 1000`.  The `BigInt`
subtraction is exact; `Number` rounds to the nearest double, which is exact
below `2 ^ 53` and maps anything of magnitude `≥ 2 ^ 53` to a double of
comparable magnitude, far above `1000` — so the comparison is equivalent to
the exact integer comparison embedded here. -/
def matchTol (difference amountWei : Int) : Bool :=
  decide ((difference - amountWei).natAbs < 1000)

/-- Outcome of one `destContract.balanceOf(recipientAddress)` read
(line 93): a balance, or a thrown error. -/
inductive ReadOutcome
  | ok (balance : Int)
  | err
deriving Repr, DecidableEq

/-- The `checkBalance` callback (lines 90-139), completing at elapsed time
`t` (milliseconds since `startTime`) with read outcome `o`:

* a throw anywhere in the body is caught (lines 136-138) and only logged —
  the state is unchanged;
* a first successful read records the baseline (lines 96-99);
* if the balance has increased and the difference is within tolerance of
  the expected amount (lines 102-126), both timers are cleared and the
  promise is resolved with the match;
* otherwise, if the elapsed time exceeds the timeout (lines 129-135), only
  the poll interval is cleared (`clearInterval(intervalId)`, line 131 — the
  source does not call `clearTimeout` in this branch) and the promise is
  resolved with `null`. -/
def checkBalanceStep (cfg : DetectorConfig) (t : Nat) (o : ReadOutcome)
    (s : DetectorState) : DetectorState :=
  match o with
  | .err => s
  | .ok current =>
    let s1 : DetectorState :=
      match s.baseline with
      | none => { s with baseline := some current, baselineAt := some t }
      | some _ => s
    let b : Int := s1.baseline.getD current
    if b < current ∧ matchTol (current - b) cfg.amountWei = true then
      resolveWith t (some { recipient := cfg.recipient, amount := current - b })
        { s1 with intervalActive := false, timeoutActive := false }
    else if cfg.timeout < t then
      resolveWith t none { s1 with intervalActive := false }
    else s1

/-- The one-shot `setTimeout` callback (lines 148-153), firing at elapsed
time `t`: clears the poll interval, resolves `null`; the one-shot timer is
consumed by firing, so it is no longer scheduled afterwards. -/
def timeoutFireStep (t : Nat) (s : DetectorState) : DetectorState :=
  resolveWith t none { s with intervalActive := false, timeoutActive := false }

/-- The `SIGINT` handler (lines 156-163): clears both timers and resolves
`null` (the process then exits, so nothing of the run survives it). -/
def sigintStep (t : Nat) (s : DetectorState) : DetectorState :=
  resolveWith t none { s with intervalActive := false, timeoutActive := false }

/-- A timer event of one run: a `checkBalance` invocation completing at
elapsed time `t` with read outcome `o`, the one-shot timeout firing, or a
`SIGINT`. -/
inductive Event
  | tick (t : Nat) (o : ReadOutcome)
  | timeoutFire (t : Nat)
  | sigint (t : Nat)
deriving Repr, DecidableEq

/-- Deliver one event: a cleared timer no longer fires, so a `tick` is a
no-op once `clearInterval` has run and the one-shot is a no-op once cleared
or already fired.  (`checkBalance` invocations whose read was still in
flight across a `clearInterval` are not represented; every effect such a
late completion could have — re-clearing flags, a second `resolve` — is a
no-op on the state.) -/
def fireEvent (cfg : DetectorConfig) (s : DetectorState) : Event → DetectorState
  | .tick t o => if s.intervalActive then checkBalanceStep cfg t o s else s
  | .timeoutFire t => if s.timeoutActive then timeoutFireStep t s else s
  | .sigint t => sigintStep t s

/-- A detection run: fold the events of the run, in time order, over the
state. -/
def runEvents (cfg : DetectorConfig) (s : DetectorState) : List Event → DetectorState
  | [] => s
  | e :: es => runEvents cfg (fireEvent cfg s e) es

/-! ## The frontend completion check (`BridgeModal.jsx`, lines 38-65) -/

/-- The `status` state of `BridgeModal` (line 29): `'confirming-source'`,
`'waiting-destination'` or `'success'`. -/
inductive ModalStatus
  | confirmingSource
  | waitingDestination
  | success
deriving Repr, DecidableEq

/-- The modal state touched by the destination-balance polling effect:
`destConfirmed` (line 31), `status` (line 29), `destBalance` (line 34), and
whether the effect's own interval has been cleared (line 59).  Balances are
embedded as rationals: the modal compares `parseFloat` of balance strings
(line 56), which is exact for the decimal balance strings involved here up
to double precision. -/
structure ModalState where
  destConfirmed : Bool
  status : ModalStatus
  destBalance : ℚ
  intervalCleared : Bool
deriving Repr, DecidableEq

/-- Lines 52-60 of `BridgeModal.jsx`: store the freshly read balance, and if
it exceeds the initial destination balance — any increase at all — mark the
destination confirmed, set the status to `'success'` and clear the polling
interval. -/
def modalCheck (newBalance initialDestBalance : ℚ) (s : ModalState) : ModalState :=
  let s2 : ModalState := { s with destBalance := newBalance }
  if initialDestBalance < newBalance then
    { s2 with
      destConfirmed := true
      status := ModalStatus.success
      intervalCleared := true }
  else s2

/-- One firing of the modal's 5-second polling interval (lines 42-62): if
the source transaction was confirmed less than 10 seconds ago the tick only
logs and returns (lines 46-50); otherwise it reads the destination balance
and runs the comparison of lines 52-60. -/
def modalTick (now : Nat) (sourceConfirmTime : Option Nat)
    (newBalance initialDestBalance : ℚ) (s : ModalState) : ModalState :=
  match sourceConfirmTime with
  | some ct =>
    if now - ct < 10000 then s
    else modalCheck newBalance initialDestBalance s
  | none => modalCheck newBalance initialDestBalance s

/-- The modal's polling spacing: `5000` ms (`BridgeModal.jsx`, line 62). -/
def modalPollIntervalMs : Nat := 5000

/-! ## Balance utilities (`frontend/src/utils/balances.js`) -/

/-- The constant `10 ^ 18`, the number of wei per token (ethers' ether/wei scaling). -/
def weiPerEther : Nat := 10 ^ 18

/-- Drop trailing `'0'` characters. -/
def trimTrailingZeros (l : List Char) : List Char :=
  (l.reverse.dropWhile (fun c => c = '0')).reverse

/-- The function `ethers.formatEther(balance)` on a non-negative `BigInt` balance
(ethers v6 `formatUnits(value, 18)`): the decimal digits of the whole part,
a `'.'`, then the 18-digit fractional part with trailing zeros trimmed but
at least one digit kept — so `formatEther 0 = "0.0"` and the output always
contains a `'.'`. -/
def formatEther (v : Nat) : String :=
  let digits := Nat.toDigits 10 (v % weiPerEther)
  let padded := List.replicate (18 - digits.length) '0' ++ digits
  let frac := trimTrailingZeros padded
  String.mk (Nat.toDigits 10 (v / weiPerEther) ++
    '.' :: (if frac.isEmpty then ['0'] else frac))

/-- The balance string `fetchTokenBalance` stores for a chain
(`balances.js`, lines 30-39): `ethers.formatEther(balance)` on a successful
read, and the literal `'0'` when the read throws (line 36, "Set to '0'
instead of 'Error'").  `fetchBalanceForChain` (lines 110-119) stores the
same two values. -/
def fetchTokenBalanceStored : Except Unit Nat → String
  | .error _ => "0"
  | .ok balance => formatEther balance

/-- The throttle window of `fetchBalanceForChain`: `10000` ms
(`balances.js`, line 75). -/
def throttleWindowMs : Nat := 10000

/-- What `fetchBalanceForChain` decides to do with one requested read
(`balances.js`, lines 65-78). -/
inductive FetchDecision
  | skipPrecondition
  | skipSameChain
  | skipThrottled
  | fetchFresh
deriving Repr, DecidableEq

/-- The early-return ladder of `fetchBalanceForChain` (lines 65-78):
return if the preconditions fail (line 65: no address, no target chain, or
no deployments — collapsed into the two flags), return if the target is the
currently connected chain (lines 68-70), return if the chain was fetched
within the last 10 seconds (lines 73-78, `now - lastFetch < 10000` with
`lastFetch = lastFetchTime[targetChainId] || 0`), and otherwise perform a
fresh `balanceOf` read. -/
def fetchBalanceForChainDecision (hasAddress deploymentsPresent : Bool)
    (targetChainId currentChainId : Nat) (now lastFetch : Nat) : FetchDecision :=
  if hasAddress = false ∨ deploymentsPresent = false then .skipPrecondition
  else if targetChainId = currentChainId then .skipSameChain
  else if now - lastFetch < throttleWindowMs then .skipThrottled
  else .fetchFresh

/-! ## CLI argument validation (`scripts/bridge.js`, `main`, lines 243-277) -/

/-- Outcome of `main`'s argument validation: the three `process.exit(1)`
paths of lines 254-269, or proceeding into `bridge(...)` (line 272). -/
inductive CliOutcome
  | usageError
  | sourceNotFound
  | destNotFound
  | proceed (sourceNetwork destNetwork amount : String)
      (recipient : Option String) (waitForCompletion : Bool)
deriving Repr, DecidableEq

/-- The argument handling of `main` (lines 245-272): `amount` defaults to
`"1"` (line 247), `waitForCompletion` is true unless the sixth argument is
`"nowait"` (line 252); missing source or destination name exits with the
usage error (lines 254-259); a name not in `network.config.js` exits with
"network not found" (lines 261-269); everything else — the amount and the
recipient included, unvalidated — proceeds into `bridge(...)`. -/
def cliParse (argSource argDest argAmount argRecipient argWait : Option String)
    (networkNames : List String) : CliOutcome :=
  let amount := argAmount.getD "1"
  match argSource, argDest with
  | some src, some dst =>
    if src ∈ networkNames then
      if dst ∈ networkNames then
        CliOutcome.proceed src dst amount argRecipient (argWait != some "nowait")
      else CliOutcome.destNotFound
    else CliOutcome.sourceNotFound
  | _, _ => CliOutcome.usageError

/-- The balance guard of `bridge(...)` (`scripts/bridge.js`, line 196):
`balance < amountWei` raises the insufficient-balance error; anything else
proceeds to submitting the bridge transaction. -/
def insufficientBalance (balance amountWei : Int) : Bool :=
  decide (balance < amountWei)

/-- Split a character list at every occurrence of `sep` (the segments, in
order; an empty list yields one empty segment, like `String.split`). -/
def splitOnChar (sep : Char) : List Char → List (List Char)
  | [] => [[]]
  | x :: xs =>
    match splitOnChar sep xs with
    | [] => if x = sep then [[], [x]] else [[x]]
    | seg :: rest =>
      if x = sep then [] :: seg :: rest
      else (x :: seg) :: rest

/-- Read a non-empty all-digit character list as the decimal number it
spells; `none` otherwise. -/
def digitsToNat (l : List Char) : Option Nat :=
  if l ≠ [] ∧ l.all Char.isDigit then
    some (l.foldl (fun n c => n * 10 + (c.toNat - 48)) 0)
  else none

/-- The function `ethers.parseEther(amount)` (ethers v6 `parseUnits(amount, 18)`) on
plain decimal strings: an optional leading `'-'`, decimal digits, and an
optional fractional part of one to eighteen digits; the result is the exact
wei value.  Anything outside this grammar is `none`, modelling the throw
(the throw is also what ethers does on every string this embedding maps to
`none`). -/
def parseEther (s : String) : Option Int :=
  let sign : Int := if s.data.head? = some '-' then -1 else 1
  let body := if s.data.head? = some '-' then s.data.tail else s.data
  match splitOnChar '.' body with
  | [w] =>
    match digitsToNat w with
    | some n => some (sign * (n * (10 : Int) ^ 18))
    | none => none
  | [w, f] =>
    if f.length ≤ 18 ∧ 0 < f.length then
      match digitsToNat w, digitsToNat f with
      | some wn, some fn =>
        some (sign * (wn * (10 : Int) ^ 18 + fn * (10 : Int) ^ (18 - f.length)))
      | _, _ => none
    else none
  | _ => none

/-- The call `waitForTokensReceived(destContract, ..., amount, ..., timeout)`
viewed as: construct the promise, whose executor first evaluates
`ethers.parseEther(amount)` (line 83) — a throw there rejects the promise —
and then run the detection loop over the run's events.  `Except.error`
models the rejected promise, `Except.ok` the state of a run whose promise
can only be settled through `resolve`. -/
def waitForTokensReceivedRun (amount : String) (timeoutMs : Nat)
    (recipient : String) (tr : List Event) : Except Unit DetectorState :=
  match parseEther amount with
  | none => Except.error ()
  | some w =>
    Except.ok (runEvents
      { amountWei := w, timeout := timeoutMs, pollInterval := 10000,
        recipient := recipient }
      initState tr)

/-! ## Frontend form validation (`TokenBridge.jsx`, `handleSubmit`) -/

/-- Matches `/[0-9a-fA-F]/`. -/
def isHexDigit (c : Char) : Bool :=
  c.isDigit || ('a' ≤ c && c ≤ 'f') || ('A' ≤ c && c ≤ 'F')

/-- The recipient check of `TokenBridge.jsx`, line 58:
`/^0x[a-fA-F0-9]{40}$/.test(recipient)`. -/
def isValidAddress (s : String) : Bool :=
  match s.data with
  | '0' :: 'x' :: rest => rest.length = 40 && rest.all isHexDigit
  | _ => false

/-- The call `parseFloat(amount)` on plain decimal strings: optional `'-'`, digits,
optional fractional digits; `none` models `NaN`.  (JS `parseFloat` also
accepts exponents and surrounding junk; the form's amounts live in this
grammar.) -/
def parseDecimal (s : String) : Option ℚ :=
  let sign : ℚ := if s.data.head? = some '-' then -1 else 1
  let body := if s.data.head? = some '-' then s.data.tail else s.data
  match splitOnChar '.' body with
  | [w] =>
    match digitsToNat w with
    | some n => some (sign * n)
    | none => none
  | [w, f] =>
    match digitsToNat w, digitsToNat f with
    | some wn, some fn =>
      some (sign * (wn + (fn : ℚ) / (10 : ℚ) ^ f.length))
    | _, _ => none
  | _ => none

/-- Outcome of the bridge form's submit handler: an error message rendered
in the form (`setError`, then `return`), or the call into
`onBridge(amount, recipient)`. -/
inductive SubmitOutcome
  | errorMsg (msg : String)
  | callBridge (amount recipient : String)
deriving Repr, DecidableEq

/-- The handler `handleSubmit` of `TokenBridge.jsx` (lines 29-65), in source order:
empty amount; `parseFloat(amount)` `NaN` or non-positive; missing source
network; missing destination network; non-empty recipient failing the
address pattern; otherwise call `onBridge`. -/
def handleSubmit (amount recipient : String)
    (sourceNetwork destNetwork : Option String) : SubmitOutcome :=
  if amount = "" then SubmitOutcome.errorMsg "Please enter an amount to bridge"
  else
    match parseDecimal amount with
    | none => SubmitOutcome.errorMsg "Please enter a valid positive amount"
    | some amountNum =>
      if amountNum ≤ 0 then
        SubmitOutcome.errorMsg "Please enter a valid positive amount"
      else if sourceNetwork = none then
        SubmitOutcome.errorMsg "Please select a source network"
      else if destNetwork = none then
        SubmitOutcome.errorMsg "Please select a destination network"
      else if recipient ≠ "" ∧ isValidAddress recipient = false then
        SubmitOutcome.errorMsg "Please enter a valid Ethereum address (0x...)"
      else SubmitOutcome.callBridge amount recipient

/-! ## Helper lemmas -/

/-- One `checkBalance` tick with the baseline already captured resolves the
promise with a match exactly when the balance has increased and the
difference passes the tolerance comparison (lines 102-106). -/
theorem checkBalance_match_iff (cfg : DetectorConfig) (t : Nat) (v b : Int)
    (s : DetectorState) (hb : s.baseline = some b) (hr : s.result = none) :
    (checkBalanceStep cfg t (ReadOutcome.ok v) s).result
        = some (some { recipient := cfg.recipient, amount := v - b })
      ↔ (b < v ∧ matchTol (v - b) cfg.amountWei = true) := by
  by_cases hm : b < v ∧ matchTol (v - b) cfg.amountWei = true
  · simp [checkBalanceStep, hb, hm, resolveWith, hr]
  · by_cases ht : cfg.timeout < t
    · simp [checkBalanceStep, hb, hm, ht, resolveWith, hr]
    · simp [checkBalanceStep, hb, hm, ht, hr]

/-- Resolving the promise leaves the timer flags untouched. -/
theorem resolveWith_intervalActive (t : Nat) (r : Resolution) (s : DetectorState) :
    (resolveWith t r s).intervalActive = s.intervalActive := by
  unfold resolveWith; split <;> rfl

/-- Resolving the promise leaves the timer flags untouched. -/
theorem resolveWith_timeoutActive (t : Nat) (r : Resolution) (s : DetectorState) :
    (resolveWith t r s).timeoutActive = s.timeoutActive := by
  unfold resolveWith; split <;> rfl

/-- Resolving the promise leaves the baseline untouched. -/
theorem resolveWith_baseline (t : Nat) (r : Resolution) (s : DetectorState) :
    (resolveWith t r s).baseline = s.baseline := by
  unfold resolveWith; split <;> rfl

/-- Resolving a pending promise settles it with the given value. -/
theorem resolveWith_result_of_none (t : Nat) (r : Resolution) (s : DetectorState)
    (h : s.result = none) : (resolveWith t r s).result = some r := by
  simp [resolveWith, h]

/-- After any `resolve` the promise is settled. -/
theorem resolveWith_result_isSome (t : Nat) (r : Resolution) (s : DetectorState) :
    (resolveWith t r s).result.isSome = true := by
  unfold resolveWith; split <;> simp_all

/-! ## Claim C1 -/

/-- C1, counterexample.  The claim quantifies over every detection run, and
the frontend modal's run violates it: with an initial destination balance
of 1000 tokens and a bridged amount of 500 tokens, a poll that reads 10000
tokens — a delta of 9000 tokens, i.e. `9000 * 10^18` smallest units, far
beyond any tolerance of the expected `500 * 10^18` — makes `modalTick` mark
the destination confirmed and the status `success`: the modal treats any
increase as a match. -/
theorem c1_counterexample :
    (modalTick 20000 (some 0) 10000 1000
        { destConfirmed := false, status := ModalStatus.waitingDestination,
          destBalance := 1000, intervalCleared := false }).destConfirmed = true
    ∧ (modalTick 20000 (some 0) 10000 1000
        { destConfirmed := false, status := ModalStatus.waitingDestination,
          destBalance := 1000, intervalCleared := false }).status = ModalStatus.success
    ∧ 0 < (9000 : Int) * 10 ^ 18
    ∧ ¬ ((9000 : Int) * 10 ^ 18 - 500 * 10 ^ 18).natAbs ≤ 999 := by
  decide

/-- C1, amended: the CLI detector (`waitForTokensReceived`) reaches
`Matched` on a tick iff the observed delta `D = current - baseline`
satisfies `D > 0` and `|D - expectedAmount| ≤ 999` smallest units (the
source's strict `< 1000` comparison), so an unrelated large incoming
transfer never matches there; the frontend `BridgeModal`, by contrast,
marks its run successful on any increase of the destination balance. -/
theorem c1_amended (cfg : DetectorConfig) (t : Nat) (v b : Int)
    (s : DetectorState) (hb : s.baseline = some b) (hr : s.result = none) :
    ((checkBalanceStep cfg t (ReadOutcome.ok v) s).result
        = some (some { recipient := cfg.recipient, amount := v - b })
      ↔ (0 < v - b ∧ ((v - b) - cfg.amountWei).natAbs ≤ 999))
    ∧ ∀ (newBal initBal : ℚ) (ms : ModalState),
        ((modalCheck newBal initBal ms).destConfirmed = true
          ↔ (initBal < newBal ∨ ms.destConfirmed = true)) := by
  constructor
  · rw [checkBalance_match_iff cfg t v b s hb hr]
    have h1 : b < v ↔ 0 < v - b := Int.sub_pos.symm
    have h2 : matchTol (v - b) cfg.amountWei = true
        ↔ ((v - b) - cfg.amountWei).natAbs ≤ 999 := by
      simp only [matchTol, decide_eq_true_eq]
      omega
    rw [h1, h2]
  · intro newBal initBal ms
    by_cases hc : initBal < newBal
    · simp [modalCheck, hc]
    · simp [modalCheck, hc]

/-- C1, witness: the spec's own scenario — baseline 1000, expected amount
500, a poll reading 1501 — instantiates the amended theorem. -/
theorem c1_witness :
    ((checkBalanceStep
        { amountWei := 500, timeout := 300000, pollInterval := 10000,
          recipient := "0xr" } 20 (ReadOutcome.ok 1501)
        { baseline := some 1000, intervalActive := true, timeoutActive := true,
          result := none, resolvedAt := none, baselineAt := some 0 }).result
        = some (some { recipient := "0xr", amount := (1501 : Int) - 1000 })
      ↔ (0 < (1501 : Int) - 1000 ∧ (((1501 : Int) - 1000) - 500).natAbs ≤ 999))
    ∧ ∀ (newBal initBal : ℚ) (ms : ModalState),
        ((modalCheck newBal initBal ms).destConfirmed = true
          ↔ (initBal < newBal ∨ ms.destConfirmed = true)) :=
  c1_amended
    { amountWei := 500, timeout := 300000, pollInterval := 10000,
      recipient := "0xr" } 20 1501 1000
    { baseline := some 1000, intervalActive := true, timeoutActive := true,
      result := none, resolvedAt := none, baselineAt := some 0 } rfl rfl

/-! ## Claim C2 -/

/-- C2, counterexample.  A run (timeout 300000 ms) whose second
`checkBalance` tick completes just after the timeout — its read was in
flight when the deadline passed, and its promise continuation runs before
the due one-shot timer callback — takes the timeout branch of lines
129-135.  That branch is a terminal transition (it settles the promise with
`null`) but calls only `clearInterval`, so the one-shot timeout timer is
still scheduled after the run has ended. -/
theorem c2_counterexample :
    (runEvents
        { amountWei := 10 ^ 18, timeout := 300000, pollInterval := 10000,
          recipient := "0xr" } initState
        [Event.tick 0 (ReadOutcome.ok 100),
         Event.tick 300001 (ReadOutcome.ok 100)]).result = some none
    ∧ (runEvents
        { amountWei := 10 ^ 18, timeout := 300000, pollInterval := 10000,
          recipient := "0xr" } initState
        [Event.tick 0 (ReadOutcome.ok 100),
         Event.tick 300001 (ReadOutcome.ok 100)]).timeoutActive = true := by
  decide

/-- C2, amended: the `SIGINT` handler and a matched tick release both
timers together, and when the one-shot timeout callback itself fires it
clears the poll interval and is consumed; but the timeout branch inside
`checkBalance` releases only the poll interval and leaves the one-shot
timer scheduled (it later fires on its own; its duplicate `resolve` is a
no-op). -/
theorem c2_amended (cfg : DetectorConfig) :
    (∀ (t : Nat) (s : DetectorState),
        (sigintStep t s).intervalActive = false
        ∧ (sigintStep t s).timeoutActive = false)
    ∧ (∀ (t : Nat) (s : DetectorState),
        (timeoutFireStep t s).intervalActive = false
        ∧ (timeoutFireStep t s).timeoutActive = false)
    ∧ (∀ (t : Nat) (v b : Int) (s : DetectorState), s.baseline = some b →
        b < v → matchTol (v - b) cfg.amountWei = true →
        ((checkBalanceStep cfg t (ReadOutcome.ok v) s).intervalActive = false
          ∧ (checkBalanceStep cfg t (ReadOutcome.ok v) s).timeoutActive = false))
    ∧ (∀ (t : Nat) (v b : Int) (s : DetectorState), s.baseline = some b →
        ¬(b < v ∧ matchTol (v - b) cfg.amountWei = true) → cfg.timeout < t →
        ((checkBalanceStep cfg t (ReadOutcome.ok v) s).intervalActive = false
          ∧ (checkBalanceStep cfg t (ReadOutcome.ok v) s).timeoutActive
              = s.timeoutActive)) := by
  refine ⟨?_, ?_, ?_, ?_⟩
  · intro t s
    constructor <;> simp [sigintStep, resolveWith_intervalActive,
      resolveWith_timeoutActive]
  · intro t s
    constructor <;> simp [timeoutFireStep, resolveWith_intervalActive,
      resolveWith_timeoutActive]
  · intro t v b s hb hlt hmt
    simp only [checkBalanceStep, hb, Option.getD_some]
    rw [if_pos ⟨hlt, hmt⟩]
    constructor <;> simp [resolveWith_intervalActive, resolveWith_timeoutActive]
  · intro t v b s hb hnm ht
    simp only [checkBalanceStep, hb, Option.getD_some]
    rw [if_neg hnm, if_pos ht]
    constructor <;> simp [resolveWith_intervalActive, resolveWith_timeoutActive]

/-- C2, witness: a matched tick (baseline 1000, read 1501, expected 500)
releases both timers. -/
theorem c2_witness :
    (checkBalanceStep
        { amountWei := 500, timeout := 300000, pollInterval := 10000,
          recipient := "0xr" } 20 (ReadOutcome.ok 1501)
        { baseline := some 1000, intervalActive := true, timeoutActive := true,
          result := none, resolvedAt := none, baselineAt := some 0 }).intervalActive
        = false
    ∧ (checkBalanceStep
        { amountWei := 500, timeout := 300000, pollInterval := 10000,
          recipient := "0xr" } 20 (ReadOutcome.ok 1501)
        { baseline := some 1000, intervalActive := true, timeoutActive := true,
          result := none, resolvedAt := none, baselineAt := some 0 }).timeoutActive
        = false :=
  (c2_amended
    { amountWei := 500, timeout := 300000, pollInterval := 10000,
      recipient := "0xr" }).2.2.1 20 1501 1000
    { baseline := some 1000, intervalActive := true, timeoutActive := true,
      result := none, resolvedAt := none, baselineAt := some 0 }
    rfl (by decide) (by decide)

/-! ## Claim C3 -/

/-- C3, counterexample.  A cancelled run and a timed-out run settle with
the same value: the `SIGINT` handler resolves `null` (line 161) exactly as
the timeout does (line 152), so the run's final result does not distinguish
the Cancelled terminal state from the TimedOut one. -/
theorem c3_counterexample :
    (runEvents
        { amountWei := 10 ^ 18, timeout := 300000, pollInterval := 10000,
          recipient := "0xr" } initState
        [Event.tick 0 (ReadOutcome.ok 100), Event.sigint 5000]).result
      = (runEvents
        { amountWei := 10 ^ 18, timeout := 300000, pollInterval := 10000,
          recipient := "0xr" } initState
        [Event.tick 0 (ReadOutcome.ok 100), Event.timeoutFire 300000]).result
    ∧ (runEvents
        { amountWei := 10 ^ 18, timeout := 300000, pollInterval := 10000,
          recipient := "0xr" } initState
        [Event.tick 0 (ReadOutcome.ok 100), Event.sigint 5000]).result
      = some none := by
  decide

/-- C3, amended: once cancellation is requested on a pending run, both
timers are cleared — so no further poll tick can fire — and the result
settles immediately to `null`; but that settled value is identical to the
timed-out value, so the Cancelled terminal state is not distinguishable
from TimedOut in the run's result (only the console text and the immediate
`process.exit(0)` differ). -/
theorem c3_amended (t : Nat) (s : DetectorState) (hres : s.result = none) :
    (sigintStep t s).result = some none
    ∧ (sigintStep t s).resolvedAt = some t
    ∧ (sigintStep t s).intervalActive = false
    ∧ (sigintStep t s).timeoutActive = false
    ∧ (∀ (cfg : DetectorConfig) (t2 : Nat) (o : ReadOutcome),
        fireEvent cfg (sigintStep t s) (Event.tick t2 o) = sigintStep t s)
    ∧ (sigintStep t s).result = (timeoutFireStep t s).result := by
  refine ⟨?_, ?_, ?_, ?_, ?_, ?_⟩
  · simp [sigintStep, resolveWith, hres]
  · simp [sigintStep, resolveWith, hres]
  · simp [sigintStep, resolveWith_intervalActive]
  · simp [sigintStep, resolveWith_timeoutActive]
  · intro cfg t2 o
    simp [fireEvent, sigintStep, resolveWith_intervalActive]
  · simp [sigintStep, timeoutFireStep]

/-- C3, witness: cancellation at 5000 ms of a pending fresh run. -/
theorem c3_witness :
    (sigintStep 5000 initState).result = some none
    ∧ (sigintStep 5000 initState).resolvedAt = some 5000
    ∧ (sigintStep 5000 initState).intervalActive = false
    ∧ (sigintStep 5000 initState).timeoutActive = false
    ∧ (∀ (cfg : DetectorConfig) (t2 : Nat) (o : ReadOutcome),
        fireEvent cfg (sigintStep 5000 initState) (Event.tick t2 o)
          = sigintStep 5000 initState)
    ∧ (sigintStep 5000 initState).result = (timeoutFireStep 5000 initState).result :=
  c3_amended 5000 initState rfl

/-! ## Claim C4 -/

/-- Folding a run distributes over appending event lists. -/
theorem runEvents_append (cfg : DetectorConfig) (s : DetectorState)
    (l1 l2 : List Event) :
    runEvents cfg s (l1 ++ l2) = runEvents cfg (runEvents cfg s l1) l2 := by
  induction l1 generalizing s with
  | nil => rfl
  | cons e es ih => simp [runEvents, ih]

/-- The state after the initial `checkBalance` read of a source that always
answers `B`: baseline captured at time 0, both timers still scheduled,
promise pending. -/
def calmState (B : Int) : DetectorState :=
  { baseline := some B, intervalActive := true, timeoutActive := true,
    result := none, resolvedAt := none, baselineAt := some 0 }

/-- The initial `checkBalance` call (line 145) at time 0 on a source
answering `B` captures the baseline and nothing else. -/
theorem tick_zero_initState (cfg : DetectorConfig) (B : Int) :
    fireEvent cfg initState (Event.tick 0 (ReadOutcome.ok B)) = calmState B := by
  simp [fireEvent, initState, checkBalanceStep, calmState]

/-- A poll tick at or before the deadline on an unchanged source is a
no-op: the balance has not increased and the elapsed time does not exceed
the timeout. -/
theorem calm_tick (cfg : DetectorConfig) (B : Int) (t : Nat)
    (ht : t ≤ cfg.timeout) :
    fireEvent cfg (calmState B) (Event.tick t (ReadOutcome.ok B)) = calmState B := by
  simp [fireEvent, calmState, checkBalanceStep, Nat.not_lt.mpr ht]

/-- A whole list of such ticks is a no-op. -/
theorem calm_run (cfg : DetectorConfig) (B : Int) (l : List Event)
    (hl : ∀ e ∈ l, ∃ t, t ≤ cfg.timeout ∧ e = Event.tick t (ReadOutcome.ok B)) :
    runEvents cfg (calmState B) l = calmState B := by
  induction l with
  | nil => rfl
  | cons e es ih =>
    obtain ⟨t, ht, rfl⟩ := hl e (List.mem_cons_self e es)
    rw [runEvents, calm_tick cfg B t ht]
    exact ih (fun e he => hl e (List.mem_cons_of_mem _ he))

/-- The idealized event schedule of a run over a source that never changes:
the initial `checkBalance` call and the `setInterval` callbacks at times
`0, p, 2p, ...` up to the deadline (all reading the constant balance `B`),
then the one-shot timeout firing at exactly `T` — `setInterval` is
registered before `setTimeout` (lines 142-148), so a tick due exactly at
the deadline runs first. -/
def neverChangingEvents (B : Int) (p T : Nat) : List Event :=
  ((List.range (T / p + 1)).map (fun k => Event.tick (k * p) (ReadOutcome.ok B)))
    ++ [Event.timeoutFire T]

/-- C4, confirmed: a run whose balance source never changes resolves with
no delta exactly when the one-shot timer fires, at elapsed time `T` — which
is `≥ T` and `< T + p` measured from the baseline capture at time 0 — and
polling is stopped there (both timers gone).  For the spec's instance
`p = 1000`, `T = 3000` the run times out at 3000 ms, inside `[3000, 4000)`. -/
theorem c4_confirmed (A B : Int) (r : String) (p T : Nat) (hp : 0 < p) :
    (runEvents { amountWei := A, timeout := T, pollInterval := p, recipient := r }
        initState (neverChangingEvents B p T)).result = some none
    ∧ (runEvents { amountWei := A, timeout := T, pollInterval := p, recipient := r }
        initState (neverChangingEvents B p T)).resolvedAt = some T
    ∧ (runEvents { amountWei := A, timeout := T, pollInterval := p, recipient := r }
        initState (neverChangingEvents B p T)).baselineAt = some 0
    ∧ (runEvents { amountWei := A, timeout := T, pollInterval := p, recipient := r }
        initState (neverChangingEvents B p T)).intervalActive = false
    ∧ (runEvents { amountWei := A, timeout := T, pollInterval := p, recipient := r }
        initState (neverChangingEvents B p T)).timeoutActive = false
    ∧ (0 + T ≤ T ∧ T < 0 + T + p) := by
  set cfg : DetectorConfig :=
    { amountWei := A, timeout := T, pollInterval := p, recipient := r } with hcfg
  have hfold : runEvents cfg initState
      ((List.range (T / p + 1)).map (fun k => Event.tick (k * p) (ReadOutcome.ok B)))
      = calmState B := by
    rw [List.range_succ_eq_map, List.map_cons, List.map_map]
    rw [runEvents, Nat.zero_mul, tick_zero_initState]
    apply calm_run
    intro e he
    simp only [List.mem_map, Function.comp, List.mem_range] at he
    obtain ⟨k, hk, rfl⟩ := he
    refine ⟨(k + 1) * p, ?_, rfl⟩
    calc (k + 1) * p ≤ (T / p) * p := Nat.mul_le_mul_right p hk
    _ ≤ T := Nat.div_mul_le_self T p
  have hrun : runEvents cfg initState (neverChangingEvents B p T)
      = timeoutFireStep T (calmState B) := by
    rw [neverChangingEvents, runEvents_append, hfold]
    simp [runEvents, fireEvent, calmState]
  rw [hrun]
  refine ⟨?_, ?_, ?_, ?_, ?_, ?_⟩
  all_goals simp [timeoutFireStep, calmState, resolveWith]
  omega

/-- C4, witness: the spec's instance — poll interval 1000 ms, timeout
3000 ms, constant balance — times out exactly at 3000 ms. -/
theorem c4_witness :
    (runEvents
        { amountWei := 500 * 10 ^ 18, timeout := 3000, pollInterval := 1000,
          recipient := "0xr" } initState (neverChangingEvents 1000 1000 3000)).result
      = some none
    ∧ (runEvents
        { amountWei := 500 * 10 ^ 18, timeout := 3000, pollInterval := 1000,
          recipient := "0xr" } initState (neverChangingEvents 1000 1000 3000)).resolvedAt
      = some 3000
    ∧ (runEvents
        { amountWei := 500 * 10 ^ 18, timeout := 3000, pollInterval := 1000,
          recipient := "0xr" } initState (neverChangingEvents 1000 1000 3000)).baselineAt
      = some 0
    ∧ (runEvents
        { amountWei := 500 * 10 ^ 18, timeout := 3000, pollInterval := 1000,
          recipient := "0xr" } initState (neverChangingEvents 1000 1000 3000)).intervalActive
      = false
    ∧ (runEvents
        { amountWei := 500 * 10 ^ 18, timeout := 3000, pollInterval := 1000,
          recipient := "0xr" } initState (neverChangingEvents 1000 1000 3000)).timeoutActive
      = false
    ∧ (0 + 3000 ≤ 3000 ∧ 3000 < 0 + 3000 + 1000) :=
  c4_confirmed (500 * 10 ^ 18) 1000 "0xr" 1000 3000 (by decide)

/-! ## Claim C5 -/

/-- No event ever changes a captured baseline: `initialBalance` is assigned
only when it is still `null` (lines 96-99). -/
theorem baseline_stable_fire (cfg : DetectorConfig) (s : DetectorState) (b : Int)
    (hb : s.baseline = some b) (e : Event) :
    (fireEvent cfg s e).baseline = some b := by
  cases e with
  | tick t o =>
    simp only [fireEvent]
    split
    · cases o with
      | err => exact hb
      | ok v =>
        simp only [checkBalanceStep, hb, Option.getD_some]
        split
        · rw [resolveWith_baseline]
        · split
          · rw [resolveWith_baseline]
          · exact hb
    · exact hb
  | timeoutFire t =>
    simp only [fireEvent]
    split
    · rw [timeoutFireStep, resolveWith_baseline]; exact hb
    · exact hb
  | sigint t =>
    rw [fireEvent, sigintStep, resolveWith_baseline]; exact hb

/-- A captured baseline survives the rest of the run unchanged. -/
theorem baseline_stable_run (cfg : DetectorConfig) (tr : List Event)
    (s : DetectorState) (b : Int) (hb : s.baseline = some b) :
    (runEvents cfg s tr).baseline = some b := by
  induction tr generalizing s with
  | nil => exact hb
  | cons e es ih => exact ih _ (baseline_stable_fire cfg s b hb e)

/-- C5, confirmed: a run captures exactly one baseline — once
`initialBalance` is set it survives every later event unchanged; the
capturing tick itself never produces a match (the comparison on that tick
is against the just-captured baseline, `current > current` fails); and on
every later tick the match decision compares the fresh balance only against
that fixed baseline `b`, resolving with delta `v - b`, never against the
preceding poll's value. -/
theorem c5_confirmed (cfg : DetectorConfig) (tr : List Event) (s : DetectorState)
    (b : Int) (hb : s.baseline = some b) :
    (runEvents cfg s tr).baseline = some b
    ∧ (∀ (t : Nat) (v : Int) (u : DetectorState), u.baseline = none →
        ((checkBalanceStep cfg t (ReadOutcome.ok v) u).baseline = some v
          ∧ (u.result = none → ∀ m : MatchValue,
              (checkBalanceStep cfg t (ReadOutcome.ok v) u).result ≠ some (some m))))
    ∧ (∀ (t : Nat) (v : Int), s.result = none →
        ((checkBalanceStep cfg t (ReadOutcome.ok v) s).result
            = some (some { recipient := cfg.recipient, amount := v - b })
          ↔ (b < v ∧ matchTol (v - b) cfg.amountWei = true))) := by
  refine ⟨baseline_stable_run cfg tr s b hb, ?_, ?_⟩
  · intro t v u hu
    constructor
    · simp only [checkBalanceStep, hu, Option.getD_some]
      split
      · rw [resolveWith_baseline]
      · split
        · rw [resolveWith_baseline]
        · rfl
    · intro hru m
      simp only [checkBalanceStep, hu, Option.getD_some]
      split
      · rename_i hcond
        exact absurd hcond.1 (lt_irrefl v)
      · split
        · rw [resolveWith_result_of_none]
          · simp
          · exact hru
        · simp [hru]
  · intro t v hr
    exact checkBalance_match_iff cfg t v b s hb hr

/-- C5, witness: a state with baseline 1000 and an empty remainder of the
run instantiate the invariant. -/
theorem c5_witness :
    (runEvents
        { amountWei := 500, timeout := 300000, pollInterval := 10000,
          recipient := "0xr" }
        { baseline := some 1000, intervalActive := true, timeoutActive := true,
          result := none, resolvedAt := none, baselineAt := some 0 } []).baseline
      = some 1000
    ∧ (∀ (t : Nat) (v : Int) (u : DetectorState), u.baseline = none →
        ((checkBalanceStep
            { amountWei := 500, timeout := 300000, pollInterval := 10000,
              recipient := "0xr" } t (ReadOutcome.ok v) u).baseline = some v
          ∧ (u.result = none → ∀ m : MatchValue,
              (checkBalanceStep
                { amountWei := 500, timeout := 300000, pollInterval := 10000,
                  recipient := "0xr" } t (ReadOutcome.ok v) u).result
                ≠ some (some m))))
    ∧ (∀ (t : Nat) (v : Int),
        ({ baseline := some 1000, intervalActive := true, timeoutActive := true,
           result := none, resolvedAt := none,
           baselineAt := some 0 } : DetectorState).result = none →
        ((checkBalanceStep
            { amountWei := 500, timeout := 300000, pollInterval := 10000,
              recipient := "0xr" } t (ReadOutcome.ok v)
            { baseline := some 1000, intervalActive := true, timeoutActive := true,
              result := none, resolvedAt := none, baselineAt := some 0 }).result
            = some (some { recipient := "0xr", amount := v - 1000 })
          ↔ ((1000 : Int) < v ∧ matchTol (v - 1000) 500 = true))) :=
  c5_confirmed
    { amountWei := 500, timeout := 300000, pollInterval := 10000,
      recipient := "0xr" } []
    { baseline := some 1000, intervalActive := true, timeoutActive := true,
      result := none, resolvedAt := none, baselineAt := some 0 } 1000 rfl

/-! ## Claim C6 -/

/-- A `checkBalance` invocation whose read threw is a no-op on the run
state, whether or not the interval is still active. -/
theorem err_tick_fire (cfg : DetectorConfig) (t : Nat) (s : DetectorState) :
    fireEvent cfg s (Event.tick t ReadOutcome.err) = s := by
  simp [fireEvent, checkBalanceStep]

/-- A whole list of failed ticks is a no-op on the run state. -/
theorem err_run (cfg : DetectorConfig) (l : List Nat) (s : DetectorState) :
    runEvents cfg s (l.map (fun t => Event.tick t ReadOutcome.err)) = s := by
  induction l with
  | nil => rfl
  | cons t ts ih => rw [List.map_cons, runEvents, err_tick_fire]; exact ih

/-- C6, confirmed: a failed balance read on any tick leaves the run state
completely unchanged — the run is not terminated; a run all of whose reads
fail still ends through the one-shot timeout, resolving `null`; and a
failed baseline-capture read leaves the baseline uncaptured, so the next
successful tick captures it. -/
theorem c6_confirmed (cfg : DetectorConfig) :
    (∀ (t : Nat) (s : DetectorState), checkBalanceStep cfg t ReadOutcome.err s = s)
    ∧ (∀ failTimes : List Nat,
        (runEvents cfg initState
          ((failTimes.map (fun t => Event.tick t ReadOutcome.err))
            ++ [Event.timeoutFire cfg.timeout])).result = some none)
    ∧ (∀ t : Nat, (checkBalanceStep cfg t ReadOutcome.err initState).baseline = none)
    ∧ (∀ (t : Nat) (v : Int),
        (checkBalanceStep cfg t (ReadOutcome.ok v) initState).baseline = some v) := by
  refine ⟨fun t s => rfl, ?_, fun t => rfl, ?_⟩
  · intro failTimes
    rw [runEvents_append, err_run]
    simp [runEvents, fireEvent, initState, timeoutFireStep, resolveWith]
  · intro t v
    simp only [checkBalanceStep, initState, Option.getD_some]
    split
    · rw [resolveWith_baseline]
    · split
      · rw [resolveWith_baseline]
      · rfl

/-! ## Claim C7 -/

/-- C7, counterexample.  The modal's completion detector polls every
5000 ms (`BridgeModal.jsx`, line 62) through
`onCheckDestBalance → fetchBalanceForChain`, but a tick arriving one poll
interval after the last recorded fetch falls inside the 10000 ms throttle
window (`balances.js`, line 75) and is suppressed — no fresh read is
performed or offered on that scheduled tick, so the throttle does block the
detector's ticks past its configured poll interval. -/
theorem c7_counterexample :
    fetchBalanceForChainDecision true true 84532 11155111 (0 + modalPollIntervalMs) 0
      = FetchDecision.skipThrottled
    ∧ modalPollIntervalMs < throttleWindowMs := by
  decide

/-- C7, amended: the per-chain throttle applies to the modal detector's own
reads — for a cross-chain read with the preconditions met, a scheduled tick
performs a fresh balance read exactly when at least 10 s (twice the modal's
5 s poll interval) have elapsed since the last recorded fetch; any tick
arriving earlier, including the one exactly one poll interval later, is
suppressed and returns the cached value. -/
theorem c7_amended (target current now lastFetch : Nat) (hchain : target ≠ current) :
    fetchBalanceForChainDecision true true target current now lastFetch
        = FetchDecision.fetchFresh
      ↔ throttleWindowMs ≤ now - lastFetch := by
  by_cases hth : now - lastFetch < throttleWindowMs
  · simp [fetchBalanceForChainDecision, hchain, hth]
  · simp [fetchBalanceForChainDecision, hchain, hth]
    omega

/-- C7, witness: a tick 20 s after the last fetch does read fresh. -/
theorem c7_witness :
    fetchBalanceForChainDecision true true 84532 11155111 20000 0
        = FetchDecision.fetchFresh
      ↔ throttleWindowMs ≤ 20000 - 0 :=
  c7_amended 84532 11155111 20000 0 (by decide)

/-! ## Claim C8 -/

/-- C8, confirmed: the stored outcome of a failed balance read (the string
`"0"`, `balances.js` line 36) differs from the stored outcome of every
successful read — `ethers.formatEther` output always contains a decimal
point (a genuine zero balance is stored as `"0.0"`), so a transient
read failure is distinguishable from a successful zero-balance read. -/
theorem c8_confirmed (v : Nat) :
    fetchTokenBalanceStored (Except.error ()) ≠ fetchTokenBalanceStored (Except.ok v) := by
  intro h
  have hmem : '.' ∈ (fetchTokenBalanceStored (Except.ok v)).data := by
    simp [fetchTokenBalanceStored, formatEther]
  rw [← h] at hmem
  have hno : ¬ '.' ∈ (fetchTokenBalanceStored (Except.error ())).data := by
    simp [fetchTokenBalanceStored]
  exact hno hmem

/-! ## Claim C9 -/

/-- C9, counterexample.  The CLI accepts the non-positive amount `"0"`
with no validation error: `cliParse` proceeds into `bridge(...)`,
`ethers.parseEther("0")` succeeds, and the only in-`bridge` guard —
the insufficient-balance check of line 196 — passes even with a zero
balance, so the bridge operation starts (the burn transaction is
submitted) instead of the input error being reported and the operation
never starting. -/
theorem c9_counterexample :
    cliParse (some "avalanche-testnet") (some "base-testnet") (some "0") none none
        ["avalanche-testnet", "base-testnet"]
      = CliOutcome.proceed "avalanche-testnet" "base-testnet" "0" none true
    ∧ parseEther "0" = some 0
    ∧ insufficientBalance 0 0 = false := by
  refine ⟨by decide, by decide, by decide⟩

/-- C9, amended: the CLI validates exactly the presence and existence of
the two network names — it proceeds into the bridge operation if and only
if both are supplied and known, with the amount and recipient passed along
unvalidated (malformed ones surface later as execution errors, exit code 1;
a non-positive numeric amount is accepted outright) — while the frontend
form is where non-positive amounts and malformed recipient addresses are
rejected before the bridge call ever starts. -/
theorem c9_amended (a2 a3 a4 a5 a6 : Option String) (nets : List String)
    (sn dn : Option String) :
    ((∃ src dst am rc w, cliParse a2 a3 a4 a5 a6 nets
        = CliOutcome.proceed src dst am rc w)
      ↔ (∃ src dst, a2 = some src ∧ a3 = some dst ∧ src ∈ nets ∧ dst ∈ nets))
    ∧ (∀ am rc, handleSubmit am rc sn dn = SubmitOutcome.callBridge am rc →
        ((∃ q, parseDecimal am = some q ∧ 0 < q)
          ∧ (rc = "" ∨ isValidAddress rc = true))) := by
  constructor
  · cases a2 with
    | none => simp [cliParse]
    | some src =>
      cases a3 with
      | none => simp [cliParse]
      | some dst =>
        by_cases hs : src ∈ nets
        · by_cases hd : dst ∈ nets
          · constructor
            · intro _
              exact ⟨src, dst, rfl, rfl, hs, hd⟩
            · intro _
              exact ⟨src, dst, a4.getD "1", a5, a6 != some "nowait",
                by simp [cliParse, hs, hd]⟩
          · simp [cliParse, hs, hd]
        · simp [cliParse, hs]
  · intro am rc h
    by_cases hemp : am = ""
    · simp [handleSubmit, hemp] at h
    · cases hq : parseDecimal am with
      | none => simp [handleSubmit, hemp, hq] at h
      | some q =>
        by_cases hpos : q ≤ 0
        · simp [handleSubmit, hemp, hq, hpos] at h
        · by_cases hsn : sn = none
          · simp [handleSubmit, hemp, hq, hpos, hsn] at h
          · by_cases hdn : dn = none
            · simp [handleSubmit, hemp, hq, hpos, hsn, hdn] at h
            · by_cases hrc : rc ≠ "" ∧ isValidAddress rc = false
              · simp [handleSubmit, hemp, hq, hpos, hsn, hdn, hrc] at h
              · refine ⟨⟨q, rfl, not_le.mp hpos⟩, ?_⟩
                by_cases hre : rc = ""
                · exact Or.inl hre
                · refine Or.inr ?_
                  rcases not_and_or.mp hrc with h1 | h2
                  · exact absurd (not_not.mp h1) hre
                  · cases hbv : isValidAddress rc with
                    | false => exact absurd hbv h2
                    | true => rfl

/-- C9, witness: a positive amount `"5"` with an empty recipient passes the
frontend validation, and its parsed value is positive. -/
theorem c9_witness :
    (∃ q, parseDecimal "5" = some q ∧ 0 < q)
    ∧ ("" = "" ∨ isValidAddress "" = true) :=
  (c9_amended (some "net-a") (some "net-b") none none none ["net-a", "net-b"]
    (some "net-a") (some "net-b")).2 "5" ""
    (by simp [handleSubmit, parseDecimal, splitOnChar, digitsToNat])

/-! ## Claim C10 -/

/-- Run invariant: as long as the one-shot timeout timer is gone, the
promise has already been settled — every transition that disarms the
one-shot (a match, the one-shot firing, `SIGINT`) also resolves. -/
def armedOrSettled (s : DetectorState) : Prop :=
  s.timeoutActive = true ∨ s.result.isSome = true

/-- A settled promise stays settled across every event (a second `resolve`
is a no-op). -/
theorem result_isSome_fire (cfg : DetectorConfig) (e : Event) (s : DetectorState)
    (h : s.result.isSome = true) : (fireEvent cfg s e).result.isSome = true := by
  cases e with
  | tick t o =>
    simp only [fireEvent]
    split
    · cases o with
      | err => exact h
      | ok v =>
        simp only [checkBalanceStep]
        split
        · exact resolveWith_result_isSome _ _ _
        · split
          · exact resolveWith_result_isSome _ _ _
          · split <;> exact h
    · exact h
  | timeoutFire t =>
    simp only [fireEvent]
    split
    · exact resolveWith_result_isSome _ _ _
    · exact h
  | sigint t => exact resolveWith_result_isSome _ _ _

/-- A settled promise stays settled for the rest of the run. -/
theorem result_isSome_run (cfg : DetectorConfig) (tr : List Event)
    (s : DetectorState) (h : s.result.isSome = true) :
    (runEvents cfg s tr).result.isSome = true := by
  induction tr generalizing s with
  | nil => exact h
  | cons e es ih => exact ih _ (result_isSome_fire cfg e s h)

/-- Every event preserves the invariant: the only transitions that disarm
the one-shot timer are resolves. -/
theorem armedOrSettled_fire (cfg : DetectorConfig) (e : Event) (s : DetectorState)
    (h : armedOrSettled s) : armedOrSettled (fireEvent cfg s e) := by
  cases e with
  | tick t o =>
    simp only [fireEvent]
    split
    · cases o with
      | err => exact h
      | ok v =>
        simp only [checkBalanceStep]
        cases hsb : s.baseline with
        | none =>
          simp only [hsb]
          split
          · exact Or.inr (resolveWith_result_isSome _ _ _)
          · split
            · cases h with
              | inl h1 => exact Or.inl (by rw [resolveWith_timeoutActive]; exact h1)
              | inr h2 => exact Or.inr (resolveWith_result_isSome _ _ _)
            · cases h with
              | inl h1 => exact Or.inl h1
              | inr h2 => exact Or.inr h2
        | some b =>
          simp only [hsb]
          split
          · exact Or.inr (resolveWith_result_isSome _ _ _)
          · split
            · cases h with
              | inl h1 => exact Or.inl (by rw [resolveWith_timeoutActive]; exact h1)
              | inr h2 => exact Or.inr (resolveWith_result_isSome _ _ _)
            · cases h with
              | inl h1 => exact Or.inl h1
              | inr h2 => exact Or.inr h2
    · exact h
  | timeoutFire t =>
    simp only [fireEvent]
    split
    · exact Or.inr (resolveWith_result_isSome _ _ _)
    · exact h
  | sigint t => exact Or.inr (resolveWith_result_isSome _ _ _)

/-- The invariant holds along any run. -/
theorem armedOrSettled_run (cfg : DetectorConfig) (tr : List Event)
    (s : DetectorState) (h : armedOrSettled s) :
    armedOrSettled (runEvents cfg s tr) := by
  induction tr generalizing s with
  | nil => exact h
  | cons e es ih => exact ih _ (armedOrSettled_fire cfg e s h)

/-- When the one-shot timeout event arrives, the promise ends up settled:
either the timer is still armed and the callback resolves `null`, or it was
disarmed, which by the invariant means the promise was already settled. -/
theorem settled_after_timeoutFire (cfg : DetectorConfig) (t : Nat)
    (s : DetectorState) (h : armedOrSettled s) :
    (fireEvent cfg s (Event.timeoutFire t)).result.isSome = true := by
  simp only [fireEvent]
  split
  · exact resolveWith_result_isSome _ _ _
  · rename_i hta
    cases h with
    | inl h1 => exact absurd h1 hta
    | inr h2 => exact h2

/-- C10, confirmed: with an amount string that `ethers.parseEther` accepts
(as at the one call site, where `bridge(...)` has already parsed the same
string), the promise returned by `waitForTokensReceived` never rejects, and
on any run whose events include the one-shot timeout firing — which real
timer semantics guarantee unless the promise was settled first — the
promise is settled, necessarily through `resolve`: exceptions inside a tick
are caught within the tick, and every terminal path calls `resolve`. -/
theorem c10_confirmed (amount : String) (timeoutMs : Nat) (recipient : String)
    (tr : List Event) (hparse : (parseEther amount).isSome = true)
    (hfire : ∃ t, Event.timeoutFire t ∈ tr) :
    ∃ s : DetectorState, waitForTokensReceivedRun amount timeoutMs recipient tr
        = Except.ok s ∧ s.result.isSome = true := by
  obtain ⟨w, hw⟩ := Option.isSome_iff_exists.mp hparse
  obtain ⟨t, ht⟩ := hfire
  obtain ⟨l1, l2, rfl⟩ := List.append_of_mem ht
  refine ⟨runEvents
      { amountWei := w, timeout := timeoutMs, pollInterval := 10000,
        recipient := recipient } initState (l1 ++ Event.timeoutFire t :: l2),
    ?_, ?_⟩
  · simp [waitForTokensReceivedRun, hw]
  · rw [runEvents_append, runEvents]
    apply result_isSome_run
    apply settled_after_timeoutFire
    apply armedOrSettled_run
    exact Or.inl rfl

/-- C10, witness: a run with amount `"1"` whose only event is the timeout
firing resolves (with `null`) and does not reject. -/
theorem c10_witness :
    ∃ s : DetectorState,
      waitForTokensReceivedRun "1" 300000 "0xr" [Event.timeoutFire 300000]
        = Except.ok s ∧ s.result.isSome = true :=
  c10_confirmed "1" 300000 "0xr" [Event.timeoutFire 300000] (by decide)
    ⟨300000, by simp⟩

end QuickstartToken
